import Mathlib

/- Formal model of aws/resource_aws_redshift_snapshot_copy_grant.go from the
terraform-provider-aws repository: the Redshift snapshot copy grant resource
(create / read / update / delete / exists), its bounded retry helpers
(findAwsRedshiftSnapshotCopyGrantWithRetry,
waitForAwsRedshiftSnapshotCopyGrantToBeDeleted) and the paginated
lookup-by-name helper (findAwsRedshiftSnapshotCopyGrant).

The external world (the Redshift API reached through the connection) is
modelled as a trace: a list of responses, consumed one per API call.  Each
modelled function returns, besides its Go results, the list of API requests it
issued, the number of lookup invocations it performed, and the unconsumed rest
of the trace.  Wall-clock time inside resource.Retry is abstracted by a fuel
parameter: the number of additional retry attempts the 3-minute deadline
still allows; fuel 0 means the next retryable outcome hits the timeout. -/

/-- A Redshift snapshot copy grant as returned by DescribeSnapshotCopyGrants
(the SDK struct redshift.SnapshotCopyGrant; tags are key/value pairs). -/
structure SnapshotCopyGrant where
  snapshotCopyGrantName : String
  kmsKeyId : String
  tags : List (String × String)
deriving DecidableEq, Repr

/-- An error produced by the AWS API client: either a coded AWS error
(awserr.Error with a code and a message) or a generic client-side error. -/
inductive AwsApiError where
  | awsErr (code : String) (message : String)
  | generic (message : String)
deriving DecidableEq, Repr

/-- The Go error values flowing through this file: errors from the API client,
the *resource.NotFoundError built by findAwsRedshiftSnapshotCopyGrant, the
*resource.TimeoutError produced by resource.Retry, errors built with
fmt.Errorf from scratch (goErr), and fmt.Errorf wrappings of another error. -/
inductive GoError where
  | api (e : AwsApiError)
  | notFound (message : String)
  | timeout (last : GoError)
  | goErr (message : String)
  | wrapped (context : String) (inner : GoError)
deriving DecidableEq, Repr

/-- Does the string sub occur in s?  Only ever used with sub = "" here,
mirroring the message argument of isAWSErr at every call site in the file. -/
def strContains (s sub : String) : Bool :=
  sub == "" || (s.splitOn sub).length ≥ 2

/-- Modelled from the spec: the provider helper isAWSErr (not part of the
provided source), which reports whether an error is an awserr.Error whose
code equals the given code and whose message contains the given substring.
Type assertions fail on NotFoundError, TimeoutError and fmt.Errorf errors. -/
def isAWSErr (e : GoError) (code message : String) : Bool :=
  match e with
  | GoError.api (AwsApiError.awsErr c m) => c == code && strContains m message
  | _ => false

/-- Modelled from the spec: the provider helper isResourceTimeoutError (not
part of the provided source), which reports whether an error is the
*resource.TimeoutError produced by resource.Retry on deadline expiry. -/
def isResourceTimeoutError (e : GoError) : Bool :=
  match e with
  | GoError.timeout _ => true
  | _ => false

/-- Does a type assertion to *resource.NotFoundError succeed on e? -/
def isNotFoundErrorType (e : GoError) : Bool :=
  match e with
  | GoError.notFound _ => true
  | _ => false

/-- The SDK constant redshift.ErrCodeSnapshotCopyGrantNotFoundFault. -/
def errCodeSnapshotCopyGrantNotFoundFault : String :=
  "SnapshotCopyGrantNotFoundFault"

/-- The request struct redshift.DescribeSnapshotCopyGrantsInput as populated
by findAwsRedshiftSnapshotCopyGrant. -/
structure DescribeSnapshotCopyGrantsInput where
  maxRecords : Option Nat
  marker : Option String
  snapshotCopyGrantName : Option String
deriving DecidableEq, Repr

/-- One page returned by DescribeSnapshotCopyGrants: the grants plus an
optional continuation marker. -/
structure DescribeSnapshotCopyGrantsOutput where
  snapshotCopyGrants : List SnapshotCopyGrant
  marker : Option String
deriving DecidableEq, Repr

/-- One response of the API to a DescribeSnapshotCopyGrants call: either an
API error or a page. -/
abbrev DescribeResponse := Except AwsApiError DescribeSnapshotCopyGrantsOutput

instance {ε α : Type} [DecidableEq ε] [DecidableEq α] :
    DecidableEq (Except ε α) := fun a b =>
  match a, b with
  | Except.error e, Except.error f =>
    if h : e = f then isTrue (by rw [h])
    else isFalse (by intro hh; cases hh; exact h rfl)
  | Except.error _, Except.ok _ => isFalse (by intro hh; cases hh)
  | Except.ok _, Except.error _ => isFalse (by intro hh; cases hh)
  | Except.ok x, Except.ok y =>
    if h : x = y then isTrue (by rw [h])
    else isFalse (by intro hh; cases hh; exact h rfl)

/-- getAwsRedshiftSnapshotCopyGrant: scan a page for the first grant carrying
the requested name (source lines 172-180). -/
def getAwsRedshiftSnapshotCopyGrant :
    List SnapshotCopyGrant → String → Option SnapshotCopyGrant
  | [], _ => none
  | grant :: grants, grantName =>
    if grant.snapshotCopyGrantName = grantName then some grant
    else getAwsRedshiftSnapshotCopyGrant grants grantName

/-- The DescribeSnapshotCopyGrantsInput built at the top of
findAwsRedshiftSnapshotCopyGrant: always MaxRecords 100; the marker when one
is given, otherwise the grant name (marker and name are mutually exclusive). -/
def mkDescribeInput (grantName : String) : Option String →
    DescribeSnapshotCopyGrantsInput
  | some m =>
    { maxRecords := some 100, marker := some m, snapshotCopyGrantName := none }
  | none =>
    { maxRecords := some 100, marker := none,
      snapshotCopyGrantName := some grantName }

/-- Result of a run of findAwsRedshiftSnapshotCopyGrant: the Go pair
(*SnapshotCopyGrant, error) as an Except, the requests issued, and the
unconsumed rest of the response trace. -/
structure FindResult where
  res : Except GoError SnapshotCopyGrant
  calls : List DescribeSnapshotCopyGrantsInput
  rest : List DescribeResponse
deriving DecidableEq, Repr

/-- findAwsRedshiftSnapshotCopyGrant (source lines 251-282): issue a
DescribeSnapshotCopyGrants request, return an API error unchanged, return the
first grant on the page matching the name, follow a returned marker to the
next page, and build a *resource.NotFoundError when the last page carries no
marker.  An exhausted response trace (an environment artefact: the model has
no response left for the call that was issued) yields a generic error. -/
def findAwsRedshiftSnapshotCopyGrant (grantName : String) :
    Option String → List DescribeResponse → FindResult
  | marker, [] =>
    { res := Except.error (GoError.goErr "model: response trace exhausted"),
      calls := [mkDescribeInput grantName marker], rest := [] }
  | marker, resp :: rest =>
    match resp with
    | Except.error e =>
      { res := Except.error (GoError.api e),
        calls := [mkDescribeInput grantName marker], rest := rest }
    | Except.ok page =>
      match getAwsRedshiftSnapshotCopyGrant page.snapshotCopyGrants grantName with
      | some grant =>
        { res := Except.ok grant,
          calls := [mkDescribeInput grantName marker], rest := rest }
      | none =>
        match page.marker with
        | some m =>
          let r := findAwsRedshiftSnapshotCopyGrant grantName (some m) rest
          { r with calls := mkDescribeInput grantName marker :: r.calls }
        | none =>
          { res := Except.error (GoError.notFound
              ("[DEBUG] Grant " ++ grantName ++ " not found")),
            calls := [mkDescribeInput grantName marker], rest := rest }

/-- Spec-side rendering of the paginated-lookup claim, written from the
claim's words, to be compared with findAwsRedshiftSnapshotCopyGrant: return
the first grant whose SnapshotCopyGrantName equals the requested name among
the pages reached by following returned markers; if no reached page contains
such a grant and the last page carries no marker, return a NotFoundError; if
any call errors, return that error unchanged. -/
def specPaginatedLookup (grantName : String) :
    List DescribeResponse → Except GoError SnapshotCopyGrant
  | [] => Except.error (GoError.goErr "model: response trace exhausted")
  | Except.error e :: _ => Except.error (GoError.api e)
  | Except.ok page :: rest =>
    match page.snapshotCopyGrants.find?
        (fun g => g.snapshotCopyGrantName = grantName) with
    | some g => Except.ok g
    | none =>
      match page.marker with
      | some _ => specPaginatedLookup grantName rest
      | none =>
        Except.error (GoError.notFound
          ("[DEBUG] Grant " ++ grantName ++ " not found"))

/-- The claim's constraints on the requests issued by one lookup: at most 100
records per page on every request, name filtering (and no marker) on the
first, marker filtering (and no name) on every later request. -/
def requestShapeOk (grantName : String) :
    List DescribeSnapshotCopyGrantsInput → Bool
  | [] => false
  | first :: later =>
    decide (first.snapshotCopyGrantName = some grantName) &&
    decide (first.marker = none) &&
    (first :: later).all (fun i => decide (i.maxRecords = some 100)) &&
    later.all (fun i =>
      decide (i.snapshotCopyGrantName = none) && i.marker.isSome)

/-- The decision resource.Retry takes on one return value of its callback:
success (callback returned nil), retry (RetryableError), or stop with a
final error (NonRetryableError). -/
inductive RetryDecision where
  | success
  | retryAgain (e : GoError)
  | stop (e : GoError)
deriving DecidableEq, Repr

/-- The error classification inside the retry callback of
findAwsRedshiftSnapshotCopyGrantWithRetry (source lines 196-203): a
*resource.NotFoundError forces a retry, every other error is non-retryable;
a successful lookup ends the retry loop. -/
def findRetryDecide (res : Except GoError SnapshotCopyGrant) : RetryDecision :=
  match res with
  | Except.ok _ => RetryDecision.success
  | Except.error e =>
    if isNotFoundErrorType e then RetryDecision.retryAgain e
    else RetryDecision.stop e

/-- Result of a retry loop or of a whole retried helper: the captured grant
variable, the error returned, the number of findAwsRedshiftSnapshotCopyGrant
invocations performed, the requests issued, and the unconsumed trace. -/
structure RetryResult where
  grant : Option SnapshotCopyGrant
  err : Option GoError
  lookups : Nat
  calls : List DescribeSnapshotCopyGrantsInput
  rest : List DescribeResponse
deriving DecidableEq, Repr

/-- Modelled from the spec: resource.Retry (the plugin SDK, not part of the
provided source) as used by findAwsRedshiftSnapshotCopyGrantWithRetry: run
the lookup, stop on success or on a non-retryable error, retry on a
retryable error while fuel remains, and produce a *resource.TimeoutError
holding the last retryable error when the 3-minute deadline expires. -/
def findRetryLoop (grantName : String) :
    Nat → List DescribeResponse → RetryResult
  | 0, trace =>
    let fr := findAwsRedshiftSnapshotCopyGrant grantName none trace
    match findRetryDecide fr.res with
    | RetryDecision.success =>
      { grant := fr.res.toOption, err := none, lookups := 1,
        calls := fr.calls, rest := fr.rest }
    | RetryDecision.stop e =>
      { grant := none, err := some e, lookups := 1,
        calls := fr.calls, rest := fr.rest }
    | RetryDecision.retryAgain e =>
      { grant := none, err := some (GoError.timeout e), lookups := 1,
        calls := fr.calls, rest := fr.rest }
  | fuel + 1, trace =>
    let fr := findAwsRedshiftSnapshotCopyGrant grantName none trace
    match findRetryDecide fr.res with
    | RetryDecision.success =>
      { grant := fr.res.toOption, err := none, lookups := 1,
        calls := fr.calls, rest := fr.rest }
    | RetryDecision.stop e =>
      { grant := none, err := some e, lookups := 1,
        calls := fr.calls, rest := fr.rest }
    | RetryDecision.retryAgain _ =>
      let r := findRetryLoop grantName fuel fr.rest
      { r with lookups := r.lookups + 1, calls := fr.calls ++ r.calls }

/-- findAwsRedshiftSnapshotCopyGrantWithRetry (source lines 190-214): retry
the lookup for up to 3 minutes, on timeout perform one final lookup, and wrap
any remaining error in an "Error finding snapshot copy grant" message. -/
def findAwsRedshiftSnapshotCopyGrantWithRetry (fuel : Nat) (grantName : String)
    (trace : List DescribeResponse) : RetryResult :=
  let r := findRetryLoop grantName fuel trace
  match r.err with
  | none => r
  | some e =>
    if isResourceTimeoutError e then
      let fr := findAwsRedshiftSnapshotCopyGrant grantName none r.rest
      match fr.res with
      | Except.ok g =>
        { grant := some g, err := none, lookups := r.lookups + 1,
          calls := r.calls ++ fr.calls, rest := fr.rest }
      | Except.error e' =>
        { grant := none,
          err := some (GoError.wrapped "Error finding snapshot copy grant" e'),
          lookups := r.lookups + 1,
          calls := r.calls ++ fr.calls, rest := fr.rest }
    else
      { grant := none,
        err := some (GoError.wrapped "Error finding snapshot copy grant" e),
        lookups := r.lookups, calls := r.calls, rest := r.rest }

/-- The retry callback of waitForAwsRedshiftSnapshotCopyGrantToBeDeleted
(source lines 220-234): a lookup error with code
SnapshotCopyGrantNotFoundFault means the grant is gone (success); a grant
still present forces a retry carrying a fresh "[DEBUG] Grant still exists"
error; any other lookup error is non-retryable. -/
def waitRetryDecide (res : Except GoError SnapshotCopyGrant) : RetryDecision :=
  match res with
  | Except.ok g =>
    RetryDecision.retryAgain (GoError.goErr
      ("[DEBUG] Grant still exists while expected to be deleted: " ++
        g.snapshotCopyGrantName))
  | Except.error e =>
    if isAWSErr e errCodeSnapshotCopyGrantNotFoundFault "" then
      RetryDecision.success
    else RetryDecision.stop e

/-- Modelled from the spec: resource.Retry as used by
waitForAwsRedshiftSnapshotCopyGrantToBeDeleted, with the callback
waitRetryDecide; fuel counts the retry attempts the 3-minute deadline still
allows. -/
def waitRetryLoop (grantName : String) :
    Nat → List DescribeResponse → RetryResult
  | 0, trace =>
    let fr := findAwsRedshiftSnapshotCopyGrant grantName none trace
    match waitRetryDecide fr.res with
    | RetryDecision.success =>
      { grant := none, err := none, lookups := 1,
        calls := fr.calls, rest := fr.rest }
    | RetryDecision.stop e =>
      { grant := none, err := some e, lookups := 1,
        calls := fr.calls, rest := fr.rest }
    | RetryDecision.retryAgain e =>
      { grant := fr.res.toOption, err := some (GoError.timeout e),
        lookups := 1, calls := fr.calls, rest := fr.rest }
  | fuel + 1, trace =>
    let fr := findAwsRedshiftSnapshotCopyGrant grantName none trace
    match waitRetryDecide fr.res with
    | RetryDecision.success =>
      { grant := none, err := none, lookups := 1,
        calls := fr.calls, rest := fr.rest }
    | RetryDecision.stop e =>
      { grant := none, err := some e, lookups := 1,
        calls := fr.calls, rest := fr.rest }
    | RetryDecision.retryAgain _ =>
      let r := waitRetryLoop grantName fuel fr.rest
      { r with lookups := r.lookups + 1, calls := fr.calls ++ r.calls }

/-- waitForAwsRedshiftSnapshotCopyGrantToBeDeleted (source lines 217-246):
retry until the lookup reports SnapshotCopyGrantNotFoundFault; on timeout
perform one final lookup, returning nil if it reports that fault or if it
finds the grant without error; wrap any remaining error in an "Error waiting
for snapshot copy grant to be deleted" message. -/
def waitForAwsRedshiftSnapshotCopyGrantToBeDeleted (fuel : Nat)
    (grantName : String) (trace : List DescribeResponse) : RetryResult :=
  let r := waitRetryLoop grantName fuel trace
  match r.err with
  | none => { r with err := none }
  | some e =>
    if isResourceTimeoutError e then
      let fr := findAwsRedshiftSnapshotCopyGrant grantName none r.rest
      match fr.res with
      | Except.error e' =>
        if isAWSErr e' errCodeSnapshotCopyGrantNotFoundFault "" then
          { grant := none, err := none, lookups := r.lookups + 1,
            calls := r.calls ++ fr.calls, rest := fr.rest }
        else
          { grant := none,
            err := some (GoError.wrapped
              "Error waiting for snapshot copy grant to be deleted" e'),
            lookups := r.lookups + 1,
            calls := r.calls ++ fr.calls, rest := fr.rest }
      | Except.ok g =>
        { grant := some g, err := none, lookups := r.lookups + 1,
          calls := r.calls ++ fr.calls, rest := fr.rest }
    else
      { grant := r.grant,
        err := some (GoError.wrapped
          "Error waiting for snapshot copy grant to be deleted" e),
        lookups := r.lookups, calls := r.calls, rest := r.rest }

/-- Is an optional error present and a *resource.TimeoutError? -/
def isTimeoutOpt : Option GoError → Bool
  | some e => isResourceTimeoutError e
  | none => false

/-- The provider client fields Read uses to build the ARN. -/
structure AWSClient where
  partition : String
  region : String
  accountid : String
deriving DecidableEq, Repr

/-- The schema.ResourceData attributes of this resource: the resource ID and
the four schema attributes (strings default to "" when unset, as in
Terraform).  tagsOld is the prior tags value the diff keeps for
d.HasChange("tags") / d.GetChange("tags"); tags is the current value
d.Get("tags") returns. -/
structure ResourceData where
  id : String
  arn : String
  kmsKeyId : String
  snapshotCopyGrantName : String
  tags : List (String × String)
  tagsOld : List (String × String)
deriving DecidableEq, Repr

/-- Modelled from the spec: keyvaluetags IgnoreAws (not part of the provided
source), which drops every tag whose key carries the AWS-internal key
namespace. -/
def ignoreAws (tags : List (String × String)) : List (String × String) :=
  tags.filter (fun kv => !kv.1.startsWith "aws:")

/-- The request struct redshift.CreateSnapshotCopyGrantInput as populated by
resourceAwsRedshiftSnapshotCopyGrantCreate. -/
structure CreateSnapshotCopyGrantInput where
  snapshotCopyGrantName : String
  kmsKeyId : Option String
  tags : List (String × String)
deriving DecidableEq, Repr

/-- One call the resource issues against the vendor API; describe is the only
non-mutating one. -/
inductive ApiCall where
  | createGrant (input : CreateSnapshotCopyGrantInput)
  | deleteGrant (snapshotCopyGrantName : String)
  | updateTags (arn : String) (old new : List (String × String))
  | describe (input : DescribeSnapshotCopyGrantsInput)
deriving DecidableEq, Repr

/-- Is this call a (non-mutating) DescribeSnapshotCopyGrants request? -/
def ApiCall.isDescribe : ApiCall → Bool
  | ApiCall.describe _ => true
  | _ => false

/-- Result of one lifecycle operation: the resource data after the call, the
Go error returned, and the API calls issued. -/
structure OpResult where
  d : ResourceData
  err : Option GoError
  calls : List ApiCall
deriving DecidableEq, Repr

/-- The ARN Read builds (arn.ARN with service "redshift" and resource
"snapshotcopygrant:<name>", rendered by the SDK as the colon-joined form). -/
def arnString (client : AWSClient) (grantName : String) : String :=
  "arn:" ++ client.partition ++ ":redshift:" ++ client.region ++ ":" ++
    client.accountid ++ ":snapshotcopygrant:" ++ grantName

/-- The body of Read after the retried lookup returned (grant, err)
(source lines 86-112): propagate an error unchanged; clear the resource ID
when no grant came back; otherwise set arn, kms_key_id,
snapshot_copy_grant_name and tags from the response. -/
def readWithLookup (client : AWSClient) (d : ResourceData)
    (grant : Option SnapshotCopyGrant) (err : Option GoError) :
    ResourceData × Option GoError :=
  match err with
  | some e => (d, some e)
  | none =>
    match grant with
    | none => ({ d with id := "" }, none)
    | some g =>
      ({ d with arn := arnString client d.id,
                kmsKeyId := g.kmsKeyId,
                snapshotCopyGrantName := g.snapshotCopyGrantName,
                tags := ignoreAws g.tags }, none)

/-- resourceAwsRedshiftSnapshotCopyGrantRead (source lines 79-113): run the
retried lookup on the resource ID, then translate its outcome into resource
state via readWithLookup. -/
def resourceAwsRedshiftSnapshotCopyGrantRead (fuel : Nat) (client : AWSClient)
    (trace : List DescribeResponse) (d : ResourceData) : OpResult :=
  let r := findAwsRedshiftSnapshotCopyGrantWithRetry fuel d.id trace
  let p := readWithLookup client d r.grant r.err
  { d := p.1, err := p.2, calls := r.calls.map ApiCall.describe }

/-- The CreateSnapshotCopyGrantInput built by Create (source lines 50-60):
the configured name, the KmsKeyId only when kms_key_id is set (GetOk: set
and non-zero), and the configured tags through the keyvaluetags pipeline. -/
def createInputOf (d : ResourceData) : CreateSnapshotCopyGrantInput :=
  { snapshotCopyGrantName := d.snapshotCopyGrantName,
    kmsKeyId := if d.kmsKeyId = "" then none else some d.kmsKeyId,
    tags := ignoreAws d.tags }

/-- resourceAwsRedshiftSnapshotCopyGrantCreate (source lines 47-77): issue
CreateSnapshotCopyGrant; on error return a wrapped "error creating" message
without setting the ID; on success set the ID to the grant name and perform
Read. -/
def resourceAwsRedshiftSnapshotCopyGrantCreate (fuel : Nat)
    (client : AWSClient) (createResp : Except AwsApiError Unit)
    (trace : List DescribeResponse) (d : ResourceData) : OpResult :=
  let grantName := d.snapshotCopyGrantName
  let input := createInputOf d
  match createResp with
  | Except.error e =>
    { d := d,
      err := some (GoError.wrapped
        ("error creating Redshift Snapshot Copy Grant (" ++ grantName ++ ")")
        (GoError.api e)),
      calls := [ApiCall.createGrant input] }
  | Except.ok _ =>
    let r := resourceAwsRedshiftSnapshotCopyGrantRead fuel client trace
      { d with id := grantName }
    { r with calls := ApiCall.createGrant input :: r.calls }

/-- resourceAwsRedshiftSnapshotCopyGrantUpdate (source lines 115-127): when
the tags attribute changed, call RedshiftUpdateTags on the stored ARN
(modelled from the spec as one tag-mutation API call answered by
updateTagsResp, since keyvaluetags.RedshiftUpdateTags is not part of the
provided source), wrapping a failure in an "error updating ... tags" message;
then perform Read. -/
def resourceAwsRedshiftSnapshotCopyGrantUpdate (fuel : Nat)
    (client : AWSClient) (updateTagsResp : Except AwsApiError Unit)
    (trace : List DescribeResponse) (d : ResourceData) : OpResult :=
  if d.tagsOld ≠ d.tags then
    match updateTagsResp with
    | Except.error e =>
      { d := d,
        err := some (GoError.wrapped
          ("error updating Redshift Snapshot Copy Grant (" ++ d.arn ++
            ") tags") (GoError.api e)),
        calls := [ApiCall.updateTags d.arn d.tagsOld d.tags] }
    | Except.ok _ =>
      let r := resourceAwsRedshiftSnapshotCopyGrantRead fuel client trace d
      { r with calls := ApiCall.updateTags d.arn d.tagsOld d.tags :: r.calls }
  else
    resourceAwsRedshiftSnapshotCopyGrantRead fuel client trace d

/-- resourceAwsRedshiftSnapshotCopyGrantDelete (source lines 129-152): issue
DeleteSnapshotCopyGrant on the resource ID; a SnapshotCopyGrantNotFoundFault
failure is success, any other failure is returned unchanged without polling;
after a successful delete, wait for the grant to disappear.  Returns the
error and the API calls issued. -/
def resourceAwsRedshiftSnapshotCopyGrantDelete (fuel : Nat)
    (deleteResp : Except AwsApiError Unit) (trace : List DescribeResponse)
    (d : ResourceData) : Option GoError × List ApiCall :=
  let grantName := d.id
  match deleteResp with
  | Except.error e =>
    if isAWSErr (GoError.api e) errCodeSnapshotCopyGrantNotFoundFault "" then
      (none, [ApiCall.deleteGrant grantName])
    else
      (some (GoError.api e), [ApiCall.deleteGrant grantName])
  | Except.ok _ =>
    let w := waitForAwsRedshiftSnapshotCopyGrantToBeDeleted fuel grantName trace
    (w.err, ApiCall.deleteGrant grantName :: w.calls.map ApiCall.describe)

/-- The body of Exists after the retried lookup returned (grant, err)
(source lines 162-169): (false, err) on an error, (true, nil) when a grant
came back, (false, nil) otherwise. -/
def existsWithLookup (grant : Option SnapshotCopyGrant)
    (err : Option GoError) : Bool × Option GoError :=
  match err with
  | some e => (false, some e)
  | none =>
    match grant with
    | some _ => (true, none)
    | none => (false, none)

/-- resourceAwsRedshiftSnapshotCopyGrantExists (source lines 154-170): run
the retried lookup on the resource ID and report presence. -/
def resourceAwsRedshiftSnapshotCopyGrantExists (fuel : Nat)
    (trace : List DescribeResponse) (d : ResourceData) :
    Bool × Option GoError :=
  let r := findAwsRedshiftSnapshotCopyGrantWithRetry fuel d.id trace
  existsWithLookup r.grant r.err

/- Helper lemmas about the paginated lookup. -/

theorem getAws_eq_find? (grants : List SnapshotCopyGrant) (grantName : String) :
    getAwsRedshiftSnapshotCopyGrant grants grantName =
      grants.find? (fun g => g.snapshotCopyGrantName = grantName) := by
  induction grants with
  | nil => rfl
  | cons g gs ih =>
    simp only [getAwsRedshiftSnapshotCopyGrant, List.find?]
    by_cases h : g.snapshotCopyGrantName = grantName
    · simp [h]
    · simp [h, ih]

theorem find_res_eq_spec (grantName : String) (marker : Option String)
    (trace : List DescribeResponse) :
    (findAwsRedshiftSnapshotCopyGrant grantName marker trace).res =
      specPaginatedLookup grantName trace := by
  induction trace generalizing marker with
  | nil => rfl
  | cons resp rest ih =>
    cases resp with
    | error e => rfl
    | ok page =>
      simp only [findAwsRedshiftSnapshotCopyGrant, specPaginatedLookup,
        getAws_eq_find?]
      cases page.snapshotCopyGrants.find?
          (fun g => g.snapshotCopyGrantName = grantName) with
      | some g => rfl
      | none =>
        cases hm : page.marker with
        | some m => simpa using ih (some m)
        | none => rfl

theorem find_calls_shape (grantName : String) (marker : Option String)
    (trace : List DescribeResponse) :
    ∃ tl, (findAwsRedshiftSnapshotCopyGrant grantName marker trace).calls =
        mkDescribeInput grantName marker :: tl ∧
      tl.all (fun i =>
        decide (i.snapshotCopyGrantName = none) && i.marker.isSome) = true ∧
      tl.all (fun i => decide (i.maxRecords = some 100)) = true := by
  induction trace generalizing marker with
  | nil => exact ⟨[], rfl, rfl, rfl⟩
  | cons resp rest ih =>
    cases resp with
    | error e => exact ⟨[], rfl, rfl, rfl⟩
    | ok page =>
      simp only [findAwsRedshiftSnapshotCopyGrant]
      cases getAwsRedshiftSnapshotCopyGrant page.snapshotCopyGrants grantName with
      | some g => exact ⟨[], rfl, rfl, rfl⟩
      | none =>
        cases page.marker with
        | some m =>
          obtain ⟨tl, hcalls, hmk, hmax⟩ := ih (some m)
          refine ⟨mkDescribeInput grantName (some m) :: tl, ?_, ?_, ?_⟩
          · simp [hcalls]
          · simp [List.all_cons, hmk, mkDescribeInput]
          · simp [List.all_cons, hmax, mkDescribeInput]
        | none => exact ⟨[], rfl, rfl, rfl⟩

/-- C1: for every grant name and every sequence of API pages, the paginated
lookup returns the first grant whose SnapshotCopyGrantName equals the
requested name among the pages reached by following returned markers
(specPaginatedLookup, which also returns a NotFoundError when no reached page
matches and the last page carries no marker, and returns any API error
unchanged), and every run requests at most 100 records per page, filtering by
name only on the first request and by marker on the later ones. -/
theorem findAwsRedshiftSnapshotCopyGrant_spec (grantName : String)
    (trace : List DescribeResponse) :
    (findAwsRedshiftSnapshotCopyGrant grantName none trace).res =
        specPaginatedLookup grantName trace ∧
      requestShapeOk grantName
        (findAwsRedshiftSnapshotCopyGrant grantName none trace).calls = true := by
  refine ⟨find_res_eq_spec grantName none trace, ?_⟩
  obtain ⟨tl, hcalls, hmk, hmax⟩ := find_calls_shape grantName none trace
  simp [requestShapeOk, hcalls, mkDescribeInput, List.all_cons, hmk, hmax]

example :
    (findAwsRedshiftSnapshotCopyGrant "g" none
      [Except.ok ⟨[⟨"h", "k", []⟩], some "m1"⟩,
       Except.ok ⟨[⟨"g", "k2", []⟩], none⟩]).res =
      Except.ok ⟨"g", "k2", []⟩ := by decide

example :
    (findAwsRedshiftSnapshotCopyGrant "g" none
      [Except.ok ⟨[], none⟩]).res =
      Except.error (GoError.notFound "[DEBUG] Grant g not found") := by decide

example :
    (findAwsRedshiftSnapshotCopyGrant "g" none
      [Except.error (AwsApiError.awsErr "Boom" "x")]).res =
      Except.error (GoError.api (AwsApiError.awsErr "Boom" "x")) := by decide

/- The retried lookup never returns a nil grant together with a nil error. -/

theorem findRetryDecide_success (res : Except GoError SnapshotCopyGrant)
    (h : findRetryDecide res = RetryDecision.success) : ∃ g, res = Except.ok g := by
  cases res with
  | ok g => exact ⟨g, rfl⟩
  | error e =>
    simp only [findRetryDecide] at h
    split at h <;> simp_all

theorem findRetryLoop_inv (grantName : String) :
    ∀ (fuel : Nat) (trace : List DescribeResponse),
      ((findRetryLoop grantName fuel trace).err = none ↔
        (findRetryLoop grantName fuel trace).grant.isSome = true) := by
  intro fuel
  induction fuel with
  | zero =>
    intro trace
    simp only [findRetryLoop]
    cases h : findRetryDecide (findAwsRedshiftSnapshotCopyGrant grantName none trace).res with
    | success =>
      obtain ⟨g, hg⟩ := findRetryDecide_success _ h
      simp [h, hg, Except.toOption]
    | retryAgain e => simp [h]
    | stop e => simp [h]
  | succ fuel ih =>
    intro trace
    simp only [findRetryLoop]
    cases h : findRetryDecide (findAwsRedshiftSnapshotCopyGrant grantName none trace).res with
    | success =>
      obtain ⟨g, hg⟩ := findRetryDecide_success _ h
      simp [h, hg, Except.toOption]
    | retryAgain e => simpa [h] using ih _
    | stop e => simp [h]

theorem findAwsRedshiftSnapshotCopyGrantWithRetry_inv (fuel : Nat)
    (grantName : String) (trace : List DescribeResponse) :
    ((findAwsRedshiftSnapshotCopyGrantWithRetry fuel grantName trace).err = none ↔
      (findAwsRedshiftSnapshotCopyGrantWithRetry fuel grantName trace).grant.isSome
        = true) := by
  simp only [findAwsRedshiftSnapshotCopyGrantWithRetry]
  cases he : (findRetryLoop grantName fuel trace).err with
  | none =>
    have := (findRetryLoop_inv grantName fuel trace).mp he
    simp [he, this]
  | some e =>
    by_cases ht : isResourceTimeoutError e = true
    · simp only [he, ht, if_true]
      cases hres :
          (findAwsRedshiftSnapshotCopyGrant grantName none
            (findRetryLoop grantName fuel trace).rest).res with
      | ok g => simp
      | error e' => simp
    · simp [he, ht]

/-- C9: the retried lookup never returns both a nil grant and a nil error:
it yields a grant exactly when the error is nil (a persistent not-found
outcome surfaces as a wrapped error after the timeout), so Read's
remove-from-state branch never changes the resource ID and Exists never
returns (false, nil). -/
theorem findAwsRedshiftSnapshotCopyGrantWithRetry_never_both_nil (fuel : Nat)
    (grantName : String) (client : AWSClient)
    (trace : List DescribeResponse) (d : ResourceData) :
    (((findAwsRedshiftSnapshotCopyGrantWithRetry fuel grantName trace).grant.isSome
          = true ∧
        (findAwsRedshiftSnapshotCopyGrantWithRetry fuel grantName trace).err
          = none) ∨
      ((findAwsRedshiftSnapshotCopyGrantWithRetry fuel grantName trace).grant
          = none ∧
        (findAwsRedshiftSnapshotCopyGrantWithRetry fuel grantName trace).err.isSome
          = true)) ∧
    (resourceAwsRedshiftSnapshotCopyGrantRead fuel client trace d).d.id = d.id ∧
    resourceAwsRedshiftSnapshotCopyGrantExists fuel trace d ≠ (false, none) := by
  refine ⟨?_, ?_, ?_⟩
  · have h := findAwsRedshiftSnapshotCopyGrantWithRetry_inv fuel grantName trace
    cases he : (findAwsRedshiftSnapshotCopyGrantWithRetry fuel grantName trace).err with
    | none => exact Or.inl ⟨h.mp he, rfl⟩
    | some e =>
      refine Or.inr ⟨?_, by simp [he]⟩
      rw [← Option.not_isSome_iff_eq_none]
      intro hs
      rw [← h] at hs
      simp [he] at hs
  · have h := findAwsRedshiftSnapshotCopyGrantWithRetry_inv fuel d.id trace
    simp only [resourceAwsRedshiftSnapshotCopyGrantRead]
    cases he : (findAwsRedshiftSnapshotCopyGrantWithRetry fuel d.id trace).err with
    | some e => simp [readWithLookup, he]
    | none =>
      obtain ⟨g, hg⟩ := Option.isSome_iff_exists.mp (h.mp he)
      simp [readWithLookup, he, hg]
  · have h := findAwsRedshiftSnapshotCopyGrantWithRetry_inv fuel d.id trace
    simp only [resourceAwsRedshiftSnapshotCopyGrantExists]
    cases he : (findAwsRedshiftSnapshotCopyGrantWithRetry fuel d.id trace).err with
    | some e => simp [existsWithLookup, he]
    | none =>
      obtain ⟨g, hg⟩ := Option.isSome_iff_exists.mp (h.mp he)
      simp [existsWithLookup, he, hg]

/-- C8: Exists is a two-state check over the retried lookup: (false, err) on
an error, (true, nil) exactly when the lookup yields a grant, and (false,
nil) when the lookup yields neither grant nor error. -/
theorem resourceAwsRedshiftSnapshotCopyGrantExists_two_state (fuel : Nat)
    (trace : List DescribeResponse) (d : ResourceData)
    (grant : Option SnapshotCopyGrant) (g : SnapshotCopyGrant) (e : GoError) :
    existsWithLookup grant (some e) = (false, some e) ∧
    existsWithLookup (some g) none = (true, none) ∧
    existsWithLookup none none = (false, none) ∧
    resourceAwsRedshiftSnapshotCopyGrantExists fuel trace d =
      existsWithLookup
        (findAwsRedshiftSnapshotCopyGrantWithRetry fuel d.id trace).grant
        (findAwsRedshiftSnapshotCopyGrantWithRetry fuel d.id trace).err ∧
    (resourceAwsRedshiftSnapshotCopyGrantExists fuel trace d = (true, none) ↔
      (findAwsRedshiftSnapshotCopyGrantWithRetry fuel d.id trace).grant.isSome
        = true) := by
  have h := findAwsRedshiftSnapshotCopyGrantWithRetry_inv fuel d.id trace
  refine ⟨rfl, rfl, rfl, rfl, ?_, ?_⟩
  · intro hEq
    simp only [resourceAwsRedshiftSnapshotCopyGrantExists] at hEq
    cases he : (findAwsRedshiftSnapshotCopyGrantWithRetry fuel d.id trace).err with
    | some e' => simp [existsWithLookup, he] at hEq
    | none =>
      cases hg : (findAwsRedshiftSnapshotCopyGrantWithRetry fuel d.id trace).grant with
      | none => simp [existsWithLookup, he, hg] at hEq
      | some g' => simp [hg]
  · intro hs
    obtain ⟨g', hg⟩ := Option.isSome_iff_exists.mp hs
    have he : (findAwsRedshiftSnapshotCopyGrantWithRetry fuel d.id trace).err = none :=
      h.mpr hs
    simp [resourceAwsRedshiftSnapshotCopyGrantExists, existsWithLookup, he, hg]

/- Errors coming out of one paginated lookup are never TimeoutErrors. -/

theorem find_err_not_timeout (grantName : String) (marker : Option String)
    (trace : List DescribeResponse) (e : GoError)
    (h : (findAwsRedshiftSnapshotCopyGrant grantName marker trace).res =
      Except.error e) : isResourceTimeoutError e = false := by
  induction trace generalizing marker with
  | nil =>
    simp only [findAwsRedshiftSnapshotCopyGrant, Except.error.injEq] at h
    subst h; rfl
  | cons resp rest ih =>
    cases resp with
    | error e' =>
      simp only [findAwsRedshiftSnapshotCopyGrant, Except.error.injEq] at h
      subst h; rfl
    | ok page =>
      simp only [findAwsRedshiftSnapshotCopyGrant] at h
      cases hg : getAwsRedshiftSnapshotCopyGrant page.snapshotCopyGrants grantName with
      | some g => simp [hg] at h
      | none =>
        cases hm : page.marker with
        | some m =>
          simp only [hg, hm] at h
          exact ih (some m) h
        | none =>
          simp only [hg, hm, Except.error.injEq] at h
          subst h; rfl

theorem findRetryLoop_stop (grantName : String) (fuel : Nat)
    (trace : List DescribeResponse) (e : GoError)
    (h : (findAwsRedshiftSnapshotCopyGrant grantName none trace).res =
      Except.error e)
    (hnf : isNotFoundErrorType e = false) :
    findRetryLoop grantName fuel trace =
      { grant := none, err := some e, lookups := 1,
        calls := (findAwsRedshiftSnapshotCopyGrant grantName none trace).calls,
        rest := (findAwsRedshiftSnapshotCopyGrant grantName none trace).rest } := by
  cases fuel with
  | zero => simp [findRetryLoop, findRetryDecide, h, hnf]
  | succ fuel => simp [findRetryLoop, findRetryDecide, h, hnf]

/-- C2: the retry loop of findAwsRedshiftSnapshotCopyGrantWithRetry
classifies a *resource.NotFoundError from the lookup as retryable (the
lookup is attempted again on the remaining responses, consuming one more
attempt), and every other error as non-retryable, in which case the helper
propagates it wrapped in an "Error finding snapshot copy grant" message. -/
theorem findAwsRedshiftSnapshotCopyGrantWithRetry_classification (fuel : Nat)
    (grantName : String) (trace : List DescribeResponse) (e : GoError)
    (h : (findAwsRedshiftSnapshotCopyGrant grantName none trace).res =
      Except.error e) :
    (findRetryDecide (Except.error e) =
      if isNotFoundErrorType e then RetryDecision.retryAgain e
      else RetryDecision.stop e) ∧
    (isNotFoundErrorType e = true →
      findRetryLoop grantName (fuel + 1) trace =
        { findRetryLoop grantName fuel
            (findAwsRedshiftSnapshotCopyGrant grantName none trace).rest with
          lookups := (findRetryLoop grantName fuel
            (findAwsRedshiftSnapshotCopyGrant grantName none trace).rest).lookups
              + 1,
          calls := (findAwsRedshiftSnapshotCopyGrant grantName none trace).calls
            ++ (findRetryLoop grantName fuel
              (findAwsRedshiftSnapshotCopyGrant grantName none trace).rest).calls }) ∧
    (isNotFoundErrorType e = false →
      findAwsRedshiftSnapshotCopyGrantWithRetry fuel grantName trace =
        { grant := none,
          err := some (GoError.wrapped "Error finding snapshot copy grant" e),
          lookups := 1,
          calls := (findAwsRedshiftSnapshotCopyGrant grantName none trace).calls,
          rest := (findAwsRedshiftSnapshotCopyGrant grantName none trace).rest }) := by
  refine ⟨rfl, ?_, ?_⟩
  · intro hnf
    simp [findRetryLoop, findRetryDecide, h, hnf]
  · intro hnf
    have hstop := findRetryLoop_stop grantName fuel trace e h hnf
    have hnt := find_err_not_timeout grantName none trace e h
    simp [findAwsRedshiftSnapshotCopyGrantWithRetry, hstop, hnt]

/-- Closed instances of the C2 theorem: a lookup over one empty final page
produces a NotFoundError, which is retried; a lookup hitting an AWS error
propagates it wrapped. -/
theorem findAwsRedshiftSnapshotCopyGrantWithRetry_classification_witness :
    (findRetryLoop "g" 1 [Except.ok ⟨[], none⟩] =
      { findRetryLoop "g" 0
          (findAwsRedshiftSnapshotCopyGrant "g" none [Except.ok ⟨[], none⟩]).rest with
        lookups := (findRetryLoop "g" 0
          (findAwsRedshiftSnapshotCopyGrant "g" none
            [Except.ok ⟨[], none⟩]).rest).lookups + 1,
        calls := (findAwsRedshiftSnapshotCopyGrant "g" none
            [Except.ok ⟨[], none⟩]).calls
          ++ (findRetryLoop "g" 0
            (findAwsRedshiftSnapshotCopyGrant "g" none
              [Except.ok ⟨[], none⟩]).rest).calls }) ∧
    (findAwsRedshiftSnapshotCopyGrantWithRetry 0 "g"
        [Except.error (AwsApiError.awsErr "AccessDenied" "no")] =
      { grant := none,
        err := some (GoError.wrapped "Error finding snapshot copy grant"
          (GoError.api (AwsApiError.awsErr "AccessDenied" "no"))),
        lookups := 1,
        calls := (findAwsRedshiftSnapshotCopyGrant "g" none
          [Except.error (AwsApiError.awsErr "AccessDenied" "no")]).calls,
        rest := (findAwsRedshiftSnapshotCopyGrant "g" none
          [Except.error (AwsApiError.awsErr "AccessDenied" "no")]).rest }) :=
  ⟨(findAwsRedshiftSnapshotCopyGrantWithRetry_classification 0 "g"
      [Except.ok ⟨[], none⟩]
      (GoError.notFound "[DEBUG] Grant g not found") (by decide)).2.1 (by decide),
   (findAwsRedshiftSnapshotCopyGrantWithRetry_classification 0 "g"
      [Except.error (AwsApiError.awsErr "AccessDenied" "no")]
      (GoError.api (AwsApiError.awsErr "AccessDenied" "no")) (by decide)).2.2
      (by decide)⟩

/- Attempt bounds for both retry loops. -/

theorem findRetryLoop_lookups_le (grantName : String) :
    ∀ (fuel : Nat) (trace : List DescribeResponse),
      (findRetryLoop grantName fuel trace).lookups ≤ fuel + 1 := by
  intro fuel
  induction fuel with
  | zero =>
    intro trace
    simp only [findRetryLoop]
    cases h : findRetryDecide (findAwsRedshiftSnapshotCopyGrant grantName none trace).res
      <;> simp [h]
  | succ fuel ih =>
    intro trace
    simp only [findRetryLoop]
    cases h : findRetryDecide (findAwsRedshiftSnapshotCopyGrant grantName none trace).res with
    | success => simp [h]
    | stop e => simp [h]
    | retryAgain e =>
      simp only [h]
      have := ih (findAwsRedshiftSnapshotCopyGrant grantName none trace).rest
      omega

theorem waitRetryLoop_lookups_le (grantName : String) :
    ∀ (fuel : Nat) (trace : List DescribeResponse),
      (waitRetryLoop grantName fuel trace).lookups ≤ fuel + 1 := by
  intro fuel
  induction fuel with
  | zero =>
    intro trace
    simp only [waitRetryLoop]
    cases h : waitRetryDecide (findAwsRedshiftSnapshotCopyGrant grantName none trace).res
      <;> simp [h]
  | succ fuel ih =>
    intro trace
    simp only [waitRetryLoop]
    cases h : waitRetryDecide (findAwsRedshiftSnapshotCopyGrant grantName none trace).res with
    | success => simp [h]
    | stop e => simp [h]
    | retryAgain e =>
      simp only [h]
      have := ih (findAwsRedshiftSnapshotCopyGrant grantName none trace).rest
      omega

theorem withRetry_lookups_eq (fuel : Nat) (grantName : String)
    (trace : List DescribeResponse) :
    (findAwsRedshiftSnapshotCopyGrantWithRetry fuel grantName trace).lookups =
      (findRetryLoop grantName fuel trace).lookups +
        (if isTimeoutOpt (findRetryLoop grantName fuel trace).err then 1
          else 0) := by
  simp only [findAwsRedshiftSnapshotCopyGrantWithRetry]
  cases he : (findRetryLoop grantName fuel trace).err with
  | none => simp [he, isTimeoutOpt]
  | some e =>
    by_cases ht : isResourceTimeoutError e = true
    · simp only [he, ht, if_true]
      cases hres : (findAwsRedshiftSnapshotCopyGrant grantName none
          (findRetryLoop grantName fuel trace).rest).res with
      | ok g => simp [isTimeoutOpt, ht]
      | error e' => simp [isTimeoutOpt, ht]
    · simp only [he]
      rw [if_neg (by simpa using ht)]
      simp [isTimeoutOpt, ht]

theorem waitFor_lookups_eq (fuel : Nat) (grantName : String)
    (trace : List DescribeResponse) :
    (waitForAwsRedshiftSnapshotCopyGrantToBeDeleted fuel grantName trace).lookups =
      (waitRetryLoop grantName fuel trace).lookups +
        (if isTimeoutOpt (waitRetryLoop grantName fuel trace).err then 1
          else 0) := by
  simp only [waitForAwsRedshiftSnapshotCopyGrantToBeDeleted]
  cases he : (waitRetryLoop grantName fuel trace).err with
  | none => simp [he, isTimeoutOpt]
  | some e =>
    by_cases ht : isResourceTimeoutError e = true
    · simp only [he, ht, if_true]
      cases hres : (findAwsRedshiftSnapshotCopyGrant grantName none
          (waitRetryLoop grantName fuel trace).rest).res with
      | ok g => simp [isTimeoutOpt, ht]
      | error e' =>
        by_cases hf : isAWSErr e' errCodeSnapshotCopyGrantNotFoundFault "" = true
          <;> simp [hf, isTimeoutOpt, ht]
    · simp only [he]
      rw [if_neg (by simpa using ht)]
      simp [isTimeoutOpt, ht]

/-- C3: both polling helpers are bounded.  With fuel the number of retry
attempts the 3-minute deadline still admits, each retry loop performs at most
fuel + 1 lookups, each helper performs exactly one additional final lookup
when and only when the loop ended in a timeout, and so each helper performs
at most fuel + 2 lookups in total on every response sequence. -/
theorem retryHelpers_bounded (fuel : Nat) (grantName : String)
    (trace : List DescribeResponse) :
    (findRetryLoop grantName fuel trace).lookups ≤ fuel + 1 ∧
    (waitRetryLoop grantName fuel trace).lookups ≤ fuel + 1 ∧
    (findAwsRedshiftSnapshotCopyGrantWithRetry fuel grantName trace).lookups =
      (findRetryLoop grantName fuel trace).lookups +
        (if isTimeoutOpt (findRetryLoop grantName fuel trace).err then 1
          else 0) ∧
    (waitForAwsRedshiftSnapshotCopyGrantToBeDeleted fuel grantName trace).lookups =
      (waitRetryLoop grantName fuel trace).lookups +
        (if isTimeoutOpt (waitRetryLoop grantName fuel trace).err then 1
          else 0) ∧
    (findAwsRedshiftSnapshotCopyGrantWithRetry fuel grantName trace).lookups ≤
      fuel + 2 ∧
    (waitForAwsRedshiftSnapshotCopyGrantToBeDeleted fuel grantName trace).lookups ≤
      fuel + 2 := by
  have h1 := findRetryLoop_lookups_le grantName fuel trace
  have h2 := waitRetryLoop_lookups_le grantName fuel trace
  have h3 := withRetry_lookups_eq fuel grantName trace
  have h4 := waitFor_lookups_eq fuel grantName trace
  refine ⟨h1, h2, h3, h4, ?_, ?_⟩
  · rw [h3]; split <;> omega
  · rw [h4]; split <;> omega

/-- C4: Delete returns nil whenever DeleteSnapshotCopyGrant fails with the
vendor code SnapshotCopyGrantNotFoundFault, returns any other delete error
unchanged while issuing no lookup (no polling), and waits for the grant to
disappear only after a successful delete call. -/
theorem resourceAwsRedshiftSnapshotCopyGrantDelete_error_handling (fuel : Nat)
    (trace : List DescribeResponse) (d : ResourceData) (e : AwsApiError) :
    resourceAwsRedshiftSnapshotCopyGrantDelete fuel (Except.error e) trace d =
      ((if isAWSErr (GoError.api e) errCodeSnapshotCopyGrantNotFoundFault ""
          then none else some (GoError.api e)),
        [ApiCall.deleteGrant d.id]) ∧
    (resourceAwsRedshiftSnapshotCopyGrantDelete fuel (Except.error e) trace
        d).2.all (fun c => !c.isDescribe) = true ∧
    resourceAwsRedshiftSnapshotCopyGrantDelete fuel (Except.ok ()) trace d =
      ((waitForAwsRedshiftSnapshotCopyGrantToBeDeleted fuel d.id trace).err,
        ApiCall.deleteGrant d.id ::
          (waitForAwsRedshiftSnapshotCopyGrantToBeDeleted fuel d.id
            trace).calls.map ApiCall.describe) := by
  refine ⟨?_, ?_, rfl⟩
  · simp only [resourceAwsRedshiftSnapshotCopyGrantDelete]
    split <;> rfl
  · simp only [resourceAwsRedshiftSnapshotCopyGrantDelete]
    split <;> rfl

/-- C6: Read translates the retried lookup's outcome into resource state:
on a lookup error it returns that error with the state unchanged, on a nil
grant it clears the resource ID, and on a grant it sets arn (built from the
client's partition, region and account and the grant name), kms_key_id,
snapshot_copy_grant_name and tags from the response; the composed Read is
exactly this translation applied to the retried lookup's result. -/
theorem resourceAwsRedshiftSnapshotCopyGrantRead_translation (fuel : Nat)
    (client : AWSClient) (trace : List DescribeResponse) (d : ResourceData)
    (grant : Option SnapshotCopyGrant) (g : SnapshotCopyGrant) (e : GoError) :
    readWithLookup client d grant (some e) = (d, some e) ∧
    readWithLookup client d none none = ({ d with id := "" }, none) ∧
    readWithLookup client d (some g) none =
      ({ d with arn := arnString client d.id,
                kmsKeyId := g.kmsKeyId,
                snapshotCopyGrantName := g.snapshotCopyGrantName,
                tags := ignoreAws g.tags }, none) ∧
    arnString client d.id =
      "arn:" ++ client.partition ++ ":redshift:" ++ client.region ++ ":" ++
        client.accountid ++ ":snapshotcopygrant:" ++ d.id ∧
    resourceAwsRedshiftSnapshotCopyGrantRead fuel client trace d =
      { d := (readWithLookup client d
          (findAwsRedshiftSnapshotCopyGrantWithRetry fuel d.id trace).grant
          (findAwsRedshiftSnapshotCopyGrantWithRetry fuel d.id trace).err).1,
        err := (readWithLookup client d
          (findAwsRedshiftSnapshotCopyGrantWithRetry fuel d.id trace).grant
          (findAwsRedshiftSnapshotCopyGrantWithRetry fuel d.id trace).err).2,
        calls := (findAwsRedshiftSnapshotCopyGrantWithRetry fuel d.id
          trace).calls.map ApiCall.describe } ∧
    (∀ e2, (findAwsRedshiftSnapshotCopyGrantWithRetry fuel d.id trace).err =
        some e2 →
      resourceAwsRedshiftSnapshotCopyGrantRead fuel client trace d =
        { d := d, err := some e2,
          calls := (findAwsRedshiftSnapshotCopyGrantWithRetry fuel d.id
            trace).calls.map ApiCall.describe }) ∧
    ((findAwsRedshiftSnapshotCopyGrantWithRetry fuel d.id trace).err = none →
      (findAwsRedshiftSnapshotCopyGrantWithRetry fuel d.id trace).grant =
        some g →
      resourceAwsRedshiftSnapshotCopyGrantRead fuel client trace d =
        { d := { d with arn := arnString client d.id,
                        kmsKeyId := g.kmsKeyId,
                        snapshotCopyGrantName := g.snapshotCopyGrantName,
                        tags := ignoreAws g.tags },
          err := none,
          calls := (findAwsRedshiftSnapshotCopyGrantWithRetry fuel d.id
            trace).calls.map ApiCall.describe }) := by
  refine ⟨rfl, rfl, rfl, rfl, rfl, ?_, ?_⟩
  · intro e2 he
    simp only [resourceAwsRedshiftSnapshotCopyGrantRead, readWithLookup, he]
  · intro he hg
    simp only [resourceAwsRedshiftSnapshotCopyGrantRead, readWithLookup, he,
      hg]

/-- Closed instances of the Read translation theorem: an erroring lookup
leaves the state untouched and surfaces the wrapped error; a lookup that
finds the grant sets arn, kms_key_id, snapshot_copy_grant_name and tags. -/
theorem resourceAwsRedshiftSnapshotCopyGrantRead_translation_witness :
    (resourceAwsRedshiftSnapshotCopyGrantRead 0 ⟨"aws", "r", "a"⟩
        [Except.error (AwsApiError.awsErr "X" "y")]
        ⟨"g", "", "", "", [], []⟩ =
      { d := ⟨"g", "", "", "", [], []⟩,
        err := some (GoError.wrapped "Error finding snapshot copy grant"
          (GoError.api (AwsApiError.awsErr "X" "y"))),
        calls := (findAwsRedshiftSnapshotCopyGrantWithRetry 0 "g"
          [Except.error (AwsApiError.awsErr "X" "y")]).calls.map
            ApiCall.describe }) ∧
    (resourceAwsRedshiftSnapshotCopyGrantRead 0 ⟨"aws", "r", "a"⟩
        [Except.ok ⟨[⟨"g", "k", [("t", "1")]⟩], none⟩]
        ⟨"g", "", "", "", [], []⟩ =
      { d := { (⟨"g", "", "", "", [], []⟩ : ResourceData) with
               arn := arnString ⟨"aws", "r", "a"⟩ "g",
               kmsKeyId := "k",
               snapshotCopyGrantName := "g",
               tags := ignoreAws [("t", "1")] },
        err := none,
        calls := (findAwsRedshiftSnapshotCopyGrantWithRetry 0 "g"
          [Except.ok ⟨[⟨"g", "k", [("t", "1")]⟩], none⟩]).calls.map
            ApiCall.describe }) :=
  ⟨(resourceAwsRedshiftSnapshotCopyGrantRead_translation 0 ⟨"aws", "r", "a"⟩
      [Except.error (AwsApiError.awsErr "X" "y")] ⟨"g", "", "", "", [], []⟩
      none ⟨"g", "k", [("t", "1")]⟩
      (GoError.goErr "u")).2.2.2.2.2.1
    (GoError.wrapped "Error finding snapshot copy grant"
      (GoError.api (AwsApiError.awsErr "X" "y"))) (by decide),
   (resourceAwsRedshiftSnapshotCopyGrantRead_translation 0 ⟨"aws", "r", "a"⟩
      [Except.ok ⟨[⟨"g", "k", [("t", "1")]⟩], none⟩] ⟨"g", "", "", "", [], []⟩
      none ⟨"g", "k", [("t", "1")]⟩
      (GoError.goErr "u")).2.2.2.2.2.2 (by decide) (by decide)⟩

/-- C7: Create builds a CreateSnapshotCopyGrantInput from the configuration
(the configured name, a KmsKeyId only when kms_key_id is set, and the
configured tags through the provider's tag pipeline); on an API error it
returns a wrapped "error creating" message without touching the resource ID,
and on success it sets the ID to the grant name and performs Read. -/
theorem resourceAwsRedshiftSnapshotCopyGrantCreate_spec (fuel : Nat)
    (client : AWSClient) (trace : List DescribeResponse) (d : ResourceData)
    (e : AwsApiError) :
    createInputOf d =
      { snapshotCopyGrantName := d.snapshotCopyGrantName,
        kmsKeyId := if d.kmsKeyId = "" then none else some d.kmsKeyId,
        tags := ignoreAws d.tags } ∧
    resourceAwsRedshiftSnapshotCopyGrantCreate fuel client (Except.error e)
        trace d =
      { d := d,
        err := some (GoError.wrapped
          ("error creating Redshift Snapshot Copy Grant (" ++
            d.snapshotCopyGrantName ++ ")") (GoError.api e)),
        calls := [ApiCall.createGrant (createInputOf d)] } ∧
    (resourceAwsRedshiftSnapshotCopyGrantCreate fuel client (Except.error e)
        trace d).d.id = d.id ∧
    resourceAwsRedshiftSnapshotCopyGrantCreate fuel client (Except.ok ())
        trace d =
      { resourceAwsRedshiftSnapshotCopyGrantRead fuel client trace
          { d with id := d.snapshotCopyGrantName } with
        calls := ApiCall.createGrant (createInputOf d) ::
          (resourceAwsRedshiftSnapshotCopyGrantRead fuel client trace
            { d with id := d.snapshotCopyGrantName }).calls } := by
  refine ⟨rfl, rfl, rfl, ?_⟩
  simp only [resourceAwsRedshiftSnapshotCopyGrantCreate]

/- Helper: calls issued through a lookup are describe requests. -/

theorem mapDescribe_all (l : List DescribeSnapshotCopyGrantsInput)
    (p : ApiCall → Bool) (hp : ∀ i, p (ApiCall.describe i) = true) :
    (l.map ApiCall.describe).all p = true := by
  simp only [List.all_eq_true]
  intro c hc
  simp only [List.mem_map] at hc
  obtain ⟨i, _, rfl⟩ := hc
  exact hp i

/-- C5 counterexample: on a state whose tags changed, when the tag-mutation
call fails, Update returns the wrapped error having issued no describe
request at all, while the Read operation on the same state and trace does
issue a describe request: Update did not finish by performing Read, so the
claim as stated is false at this input. -/
theorem resourceAwsRedshiftSnapshotCopyGrantUpdate_read_skipped :
    ((resourceAwsRedshiftSnapshotCopyGrantUpdate 0 ⟨"aws", "us-east-1", "1234"⟩
        (Except.error (AwsApiError.awsErr "Throttling" "slow")) []
        ⟨"g", "arn0", "", "g", [("a", "1")], []⟩).calls.all
      (fun c => !c.isDescribe) = true) ∧
    ((resourceAwsRedshiftSnapshotCopyGrantUpdate 0 ⟨"aws", "us-east-1", "1234"⟩
        (Except.error (AwsApiError.awsErr "Throttling" "slow")) []
        ⟨"g", "arn0", "", "g", [("a", "1")], []⟩).err.isSome = true) ∧
    ((resourceAwsRedshiftSnapshotCopyGrantRead 0 ⟨"aws", "us-east-1", "1234"⟩ []
        ⟨"g", "arn0", "", "g", [("a", "1")], []⟩).calls.all
      (fun c => !c.isDescribe) = false) := by
  decide

/-- C5 amended: Update issues a tag-mutation call only when the tags
attribute changed and issues no other mutation; when the tags are unchanged,
or the tag-mutation call succeeds, it finishes by performing the Read
operation; when the tag-mutation call fails it returns the wrapped "error
updating ... tags" error immediately, without performing Read. -/
theorem resourceAwsRedshiftSnapshotCopyGrantUpdate_frame (fuel : Nat)
    (client : AWSClient) (updateTagsResp : Except AwsApiError Unit)
    (trace : List DescribeResponse) (d : ResourceData) (e : AwsApiError) :
    (d.tagsOld = d.tags →
      resourceAwsRedshiftSnapshotCopyGrantUpdate fuel client updateTagsResp
          trace d =
        resourceAwsRedshiftSnapshotCopyGrantRead fuel client trace d) ∧
    (d.tagsOld ≠ d.tags →
      resourceAwsRedshiftSnapshotCopyGrantUpdate fuel client (Except.ok ())
          trace d =
        { resourceAwsRedshiftSnapshotCopyGrantRead fuel client trace d with
          calls := ApiCall.updateTags d.arn d.tagsOld d.tags ::
            (resourceAwsRedshiftSnapshotCopyGrantRead fuel client trace
              d).calls }) ∧
    (d.tagsOld ≠ d.tags →
      resourceAwsRedshiftSnapshotCopyGrantUpdate fuel client (Except.error e)
          trace d =
        { d := d,
          err := some (GoError.wrapped
            ("error updating Redshift Snapshot Copy Grant (" ++ d.arn ++
              ") tags") (GoError.api e)),
          calls := [ApiCall.updateTags d.arn d.tagsOld d.tags] }) ∧
    ((resourceAwsRedshiftSnapshotCopyGrantUpdate fuel client updateTagsResp
        trace d).calls.all (fun c =>
      c.isDescribe ||
        decide (c = ApiCall.updateTags d.arn d.tagsOld d.tags)) = true) ∧
    (d.tagsOld = d.tags →
      (resourceAwsRedshiftSnapshotCopyGrantUpdate fuel client updateTagsResp
        trace d).calls.all ApiCall.isDescribe = true) := by
  refine ⟨?_, ?_, ?_, ?_, ?_⟩
  · intro h
    simp [resourceAwsRedshiftSnapshotCopyGrantUpdate, h]
  · intro h
    simp only [resourceAwsRedshiftSnapshotCopyGrantUpdate]
    rw [if_pos h]
  · intro h
    simp only [resourceAwsRedshiftSnapshotCopyGrantUpdate]
    rw [if_pos h]
  · by_cases hch : d.tagsOld = d.tags
    · simp only [resourceAwsRedshiftSnapshotCopyGrantUpdate, hch, ne_eq,
        not_true_eq_false, if_false, resourceAwsRedshiftSnapshotCopyGrantRead]
      exact mapDescribe_all _ _ (fun i => rfl)
    · simp only [resourceAwsRedshiftSnapshotCopyGrantUpdate]
      rw [if_pos hch]
      cases updateTagsResp with
      | error e' => simp [ApiCall.isDescribe]
      | ok u =>
        simp only [resourceAwsRedshiftSnapshotCopyGrantRead, List.all_cons,
          Bool.and_eq_true]
        exact ⟨by simp [ApiCall.isDescribe], mapDescribe_all _ _ (fun i => rfl)⟩
  · intro h
    simp only [resourceAwsRedshiftSnapshotCopyGrantUpdate, h, ne_eq,
      not_true_eq_false, if_false, resourceAwsRedshiftSnapshotCopyGrantRead]
    exact mapDescribe_all _ _ (fun i => rfl)

/-- Closed instances of the amended Update theorem at concrete states: an
unchanged-tags state where Update is exactly Read, a changed-tags state with
a successful tag call (Read performed after the tag call), and a changed-tags
state with a failing tag call (wrapped error, only the tag call issued). -/
theorem resourceAwsRedshiftSnapshotCopyGrantUpdate_frame_witness :
    (resourceAwsRedshiftSnapshotCopyGrantUpdate 0 ⟨"aws", "r", "a"⟩
        (Except.ok ()) [] ⟨"g", "arn0", "", "g", [("a", "1")], [("a", "1")]⟩ =
      resourceAwsRedshiftSnapshotCopyGrantRead 0 ⟨"aws", "r", "a"⟩ []
        ⟨"g", "arn0", "", "g", [("a", "1")], [("a", "1")]⟩) ∧
    (resourceAwsRedshiftSnapshotCopyGrantUpdate 0 ⟨"aws", "r", "a"⟩
        (Except.ok ()) [] ⟨"g", "arn0", "", "g", [("a", "1")], []⟩ =
      { resourceAwsRedshiftSnapshotCopyGrantRead 0 ⟨"aws", "r", "a"⟩ []
          ⟨"g", "arn0", "", "g", [("a", "1")], []⟩ with
        calls := ApiCall.updateTags "arn0" [] [("a", "1")] ::
          (resourceAwsRedshiftSnapshotCopyGrantRead 0 ⟨"aws", "r", "a"⟩ []
            ⟨"g", "arn0", "", "g", [("a", "1")], []⟩).calls }) ∧
    (resourceAwsRedshiftSnapshotCopyGrantUpdate 0 ⟨"aws", "r", "a"⟩
        (Except.error (AwsApiError.awsErr "T" "s")) []
        ⟨"g", "arn0", "", "g", [("a", "1")], []⟩ =
      { d := ⟨"g", "arn0", "", "g", [("a", "1")], []⟩,
        err := some (GoError.wrapped
          "error updating Redshift Snapshot Copy Grant (arn0) tags"
          (GoError.api (AwsApiError.awsErr "T" "s"))),
        calls := [ApiCall.updateTags "arn0" [] [("a", "1")]] }) ∧
    ((resourceAwsRedshiftSnapshotCopyGrantUpdate 0 ⟨"aws", "r", "a"⟩
        (Except.ok ()) [] ⟨"g", "arn0", "", "g", [("a", "1")], [("a", "1")]⟩).calls.all
      ApiCall.isDescribe = true) :=
  ⟨(resourceAwsRedshiftSnapshotCopyGrantUpdate_frame 0 ⟨"aws", "r", "a"⟩
      (Except.ok ()) [] ⟨"g", "arn0", "", "g", [("a", "1")], [("a", "1")]⟩
      (AwsApiError.awsErr "T" "s")).1 rfl,
   (resourceAwsRedshiftSnapshotCopyGrantUpdate_frame 0 ⟨"aws", "r", "a"⟩
      (Except.ok ()) [] ⟨"g", "arn0", "", "g", [("a", "1")], []⟩
      (AwsApiError.awsErr "T" "s")).2.1 (by decide),
   (resourceAwsRedshiftSnapshotCopyGrantUpdate_frame 0 ⟨"aws", "r", "a"⟩
      (Except.error (AwsApiError.awsErr "T" "s")) []
      ⟨"g", "arn0", "", "g", [("a", "1")], []⟩
      (AwsApiError.awsErr "T" "s")).2.2.1 (by decide),
   (resourceAwsRedshiftSnapshotCopyGrantUpdate_frame 0 ⟨"aws", "r", "a"⟩
      (Except.ok ()) [] ⟨"g", "arn0", "", "g", [("a", "1")], [("a", "1")]⟩
      (AwsApiError.awsErr "T" "s")).2.2.2.2 rfl⟩

/-- Is this API response a successful page (no error at all)? -/
def respIsOk : DescribeResponse → Bool
  | Except.ok _ => true
  | Except.error _ => false

theorem waitRetryLoop_stop (grantName : String) (fuel : Nat)
    (trace : List DescribeResponse) (e : GoError)
    (h : (findAwsRedshiftSnapshotCopyGrant grantName none trace).res =
      Except.error e)
    (hnf : isAWSErr e errCodeSnapshotCopyGrantNotFoundFault "" = false) :
    waitRetryLoop grantName fuel trace =
      { grant := none, err := some e, lookups := 1,
        calls := (findAwsRedshiftSnapshotCopyGrant grantName none trace).calls,
        rest := (findAwsRedshiftSnapshotCopyGrant grantName none trace).rest } := by
  cases fuel with
  | zero => simp [waitRetryLoop, waitRetryDecide, h, hnf]
  | succ fuel => simp [waitRetryLoop, waitRetryDecide, h, hnf]

/-- C10 counterexample: on a trace of only successful pages that keep
containing the grant, the retry loop times out and the final lookup succeeds,
so waitForAwsRedshiftSnapshotCopyGrantToBeDeleted returns nil although no
lookup ever failed with SnapshotCopyGrantNotFoundFault — the claim's "returns
nil only when the lookup fails with that fault" is false at this input. -/
theorem waitForAwsRedshiftSnapshotCopyGrantToBeDeleted_nil_without_fault :
    ((waitForAwsRedshiftSnapshotCopyGrantToBeDeleted 0 "g"
        [Except.ok ⟨[⟨"g", "k", []⟩], none⟩,
         Except.ok ⟨[⟨"g", "k", []⟩], none⟩]).err = none) ∧
    ([Except.ok ⟨[⟨"g", "k", []⟩], none⟩,
      Except.ok ⟨[⟨"g", "k", []⟩], none⟩].all respIsOk = true) := by
  decide

/-- C10 amended: the retry callback confirms deletion exactly when the lookup
fails with SnapshotCopyGrantNotFoundFault; the helper returns nil exactly
when the loop so succeeded, or when it timed out and the post-timeout final
lookup either reports that fault or returns without error (the grant then
still existing); and a lookup reporting absence as a generic NotFoundError
makes the helper return the non-nil wrapped error. -/
theorem waitForAwsRedshiftSnapshotCopyGrantToBeDeleted_conditions (fuel : Nat)
    (grantName : String) (trace : List DescribeResponse) (m : String)
    (res : Except GoError SnapshotCopyGrant) :
    (waitRetryDecide res = RetryDecision.success ↔
      ∃ e', res = Except.error e' ∧
        isAWSErr e' errCodeSnapshotCopyGrantNotFoundFault "" = true) ∧
    ((waitForAwsRedshiftSnapshotCopyGrantToBeDeleted fuel grantName
        trace).err = none ↔
      ((waitRetryLoop grantName fuel trace).err = none ∨
        (isTimeoutOpt (waitRetryLoop grantName fuel trace).err = true ∧
          ((∃ g, (findAwsRedshiftSnapshotCopyGrant grantName none
              (waitRetryLoop grantName fuel trace).rest).res = Except.ok g) ∨
            (∃ e', (findAwsRedshiftSnapshotCopyGrant grantName none
                (waitRetryLoop grantName fuel trace).rest).res =
                  Except.error e' ∧
              isAWSErr e' errCodeSnapshotCopyGrantNotFoundFault ""
                = true))))) ∧
    ((findAwsRedshiftSnapshotCopyGrant grantName none trace).res =
        Except.error (GoError.notFound m) →
      (waitForAwsRedshiftSnapshotCopyGrantToBeDeleted fuel grantName
          trace).err =
        some (GoError.wrapped
          "Error waiting for snapshot copy grant to be deleted"
          (GoError.notFound m))) := by
  refine ⟨?_, ?_, ?_⟩
  · cases res with
    | ok g => simp [waitRetryDecide]
    | error e2 =>
      simp only [waitRetryDecide]
      by_cases hf : isAWSErr e2 errCodeSnapshotCopyGrantNotFoundFault "" = true
      · simp [hf]
      · simp [hf]
  · simp only [waitForAwsRedshiftSnapshotCopyGrantToBeDeleted]
    cases he : (waitRetryLoop grantName fuel trace).err with
    | none => simp [isTimeoutOpt]
    | some e =>
      by_cases ht : isResourceTimeoutError e = true
      · simp only [ht, if_true]
        cases hres : (findAwsRedshiftSnapshotCopyGrant grantName none
            (waitRetryLoop grantName fuel trace).rest).res with
        | ok g => simp [hres, isTimeoutOpt, ht]
        | error e' =>
          by_cases hf : isAWSErr e' errCodeSnapshotCopyGrantNotFoundFault ""
              = true
          · simp [hres, hf, isTimeoutOpt, ht]
          · simp [hres, hf, isTimeoutOpt, ht]
      · simp only [ht, if_false]
        simp [isTimeoutOpt, ht]
  · intro h
    have hstop := waitRetryLoop_stop grantName fuel trace (GoError.notFound m)
      h rfl
    simp [waitForAwsRedshiftSnapshotCopyGrantToBeDeleted, hstop,
      isResourceTimeoutError]

/-- Closed instance of the amended waitFor theorem: a lookup that reports
absence as a generic NotFoundError (one empty page without marker) makes the
helper return the wrapped non-nil error rather than confirming deletion. -/
theorem waitForAwsRedshiftSnapshotCopyGrantToBeDeleted_conditions_witness :
    (waitForAwsRedshiftSnapshotCopyGrantToBeDeleted 0 "g"
        [Except.ok ⟨[], none⟩]).err =
      some (GoError.wrapped
        "Error waiting for snapshot copy grant to be deleted"
        (GoError.notFound "[DEBUG] Grant g not found")) :=
  (waitForAwsRedshiftSnapshotCopyGrantToBeDeleted_conditions 0 "g"
    [Except.ok ⟨[], none⟩] "[DEBUG] Grant g not found"
    (Except.ok ⟨"g", "k", []⟩)).2.2 (by decide)
